import Mathlib

/-!
Verification development for the parameterized SQL execution gateway of the
repository: the statement builders and executor of
`src/services/pg_query.py`, the pool manager of `src/common/db_utils.py`,
and the authorization gate of `src/services/auth_service.py`, shallowly
embedded as executable Lean definitions with Python side effects
(exceptions, global state, coroutine interleaving) made explicit.
-/

namespace McpSse

/-- Runtime value passed as a SQL parameter (Python is dynamically typed;
the builders only ever append ints and pass caller values through). -/
inductive Value where
  | int (n : Int)
  | str (s : String)
  | null
  deriving Repr, DecidableEq

/-- A database row as returned by the driver: a mapping from column name to
value (Python `dict(row)`). -/
abbrev Row : Type := List (String × Value)

/-- A Python exception, split the way `_execute_query` and
`validate_api_key_from_db` split their `except` clauses:
`asyncpg.PostgresError` (carrying `type(e).__name__` and `str(e)`) versus
any other `Exception` (carrying `str(e)`). -/
inductive PyExc where
  | postgres (name msg : String)
  | other (msg : String)
  deriving Repr, DecidableEq

/-- Outcome of calling a Python function: a normal return value, or an
exception propagating past the call boundary. -/
inductive PyOutcome (α : Type) where
  | ret (a : α)
  | raised (e : PyExc)
  deriving Repr, DecidableEq

/-- The `columns` argument of `select_from_table`, Python type
`Union[List[str], str]`. -/
inductive Columns where
  | list (cs : List String)
  | raw (s : String)
  deriving Repr, DecidableEq

/-- A built statement: the SQL text plus the `params` value handed to
`_execute_query` (`None` or an ordered list). -/
structure Statement where
  query : String
  params : Option (List Value)
  deriving Repr, DecidableEq

/-- Python truthiness of an `Optional[str]`: `None` and `""` are falsy. -/
def truthyStr : Option String → Bool
  | none => false
  | some s => s != ""

/-- Python truthiness of an `Optional[List[...]]`: `None` and `[]` are
falsy. -/
def truthyList {α : Type} : Option (List α) → Bool
  | none => false
  | some l => !l.isEmpty

/-- Embedding of the statement-building part of
`select_from_table(table_name, columns, where_clause, query_params,
order_by, limit, offset)` (src/services/pg_query.py, lines 67-124): the
SQL text and the parameter list it hands to `_execute_query` with
`fetch_all=True`.  `current_param_idx` starts at 0 and is incremented in
the `limit` and `offset` branches; the placeholder arithmetic including
the `len(query_params)` adjustments and Python truthiness tests is
translated verbatim. -/
def select_from_table (table_name : String) (columns : Columns)
    (where_clause : Option String) (query_params : Option (List Value))
    (order_by : Option String) (limit : Option Int) (offset : Option Int) :
    Statement :=
  let col_str := match columns with
    | .list cs => String.intercalate ", " cs
    | .raw s => s
  let query := "SELECT " ++ col_str ++ " FROM " ++ table_name
  let query := if truthyStr where_clause then
      query ++ " WHERE " ++ where_clause.getD "" else query
  let query := if truthyStr order_by then
      query ++ " ORDER BY " ++ order_by.getD "" else query
  let idx0 : Int := 0
  let after_limit :=
    match limit with
    | none => (idx0, query, query_params)
    | some l =>
        (idx0 + 1,
         query ++ " LIMIT $" ++ toString (idx0 + 1 +
           (if truthyList query_params then
              ((query_params.getD []).length : Int) else 0)),
         some (query_params.getD [] ++ [Value.int l]))
  let idx1 := after_limit.1
  let query1 := after_limit.2.1
  let params1 := after_limit.2.2
  match offset with
  | none => ⟨query1, params1⟩
  | some o =>
      ⟨query1 ++ " OFFSET $" ++ toString (idx1 + 1 +
         (if truthyList params1 && limit.isSome then
            ((params1.getD []).length : Int) - 1
          else if truthyList params1 then
            ((params1.getD []).length : Int) else 0)),
       some (params1.getD [] ++ [Value.int o])⟩

/-- Embedding of the statement-building part of
`insert_into_table(table_name, data, returning_columns)`
(src/services/pg_query.py, lines 127-149).  `data` is an insertion-ordered
dict, modelled as an association list.  Returns the statement together
with the execution mode chosen by the source: `true` means
`execute_only=True` (no `RETURNING` clause), `false` means
`fetch_all=True` (a `RETURNING` clause was appended). -/
def insert_build (table_name : String) (data : List (String × Value))
    (returning_columns : Option (List String)) : Statement × Bool :=
  let columns := String.intercalate ", " (data.map Prod.fst)
  let placeholders := String.intercalate ", "
    ((List.range data.length).map (fun i => "$" ++ toString (i + 1)))
  let values := data.map Prod.snd
  let query := "INSERT INTO " ++ table_name ++ " (" ++ columns ++
    ") VALUES (" ++ placeholders ++ ")"
  if truthyList returning_columns then
    (⟨query ++ " RETURNING " ++
        String.intercalate ", " ((returning_columns).getD []), some values⟩,
     false)
  else
    (⟨query, some values⟩, true)

/-- One iteration of the `for key, value in set_values.items()` loop of
`update_table`: append `f"{key} = ${current_param_idx}"`, record the
value, and advance `current_param_idx`. -/
def updateSetStep (acc : List String × Nat × List Value)
    (kv : String × Value) : List String × Nat × List Value :=
  (acc.1 ++ [kv.1 ++ " = $" ++ toString acc.2.1],
   acc.2.1 + 1, acc.2.2 ++ [kv.2])

/-- Embedding of the statement-building part of
`update_table(table_name, set_values, where_clause, query_params)`
(src/services/pg_query.py, lines 152-189): the loop over
`set_values.items()` numbering SET placeholders from 1, and
`final_params = update_params + (query_params if query_params else [])`. -/
def update_table (table_name : String) (set_values : List (String × Value))
    (where_clause : String) (query_params : Option (List Value)) :
    Statement :=
  let folded := set_values.foldl updateSetStep ([], 1, [])
  let set_str := String.intercalate ", " folded.1
  let query := "UPDATE " ++ table_name ++ " SET " ++ set_str ++
    " WHERE " ++ where_clause
  let final_params := folded.2.2 ++
    (if truthyList query_params then query_params.getD [] else [])
  ⟨query, some final_params⟩

deriving instance DecidableEq for Except

/-- The three connection settings checked at the top of `_execute_query`
(`if not DB_USER or not DB_HOST or not DB_NAME`). -/
structure DbConfig where
  dbUser : String
  dbHost : String
  dbName : String
  deriving Repr, DecidableEq

/-- Behaviour of the effectful steps `_execute_query` performs, one field
per fallible operation: obtaining the global pool (`get_db_pool`),
acquiring a connection (`pool.acquire()`), opening the transaction
(`connection.transaction()` entry, which issues BEGIN), and the three
driver calls (`connection.fetch`, `connection.fetchrow`,
`connection.execute`).  `Except.error e` means that step raises `e`. -/
structure ExecEnv where
  getPool : Except PyExc Unit
  acquire : Except PyExc Unit
  beginTx : Except PyExc Unit
  fetchResult : Except PyExc (List Row)
  fetchrowResult : Except PyExc (Option Row)
  executeResult : Except PyExc String
  deriving Repr, DecidableEq

/-- Final fate of the statement's transaction.  `asyncpg`'s
`async with connection.transaction()` issues COMMIT when the block exits
without a propagating exception and ROLLBACK otherwise.  Because
`_execute_query` catches every exception inside the block, the block
always exits normally once BEGIN succeeded, and asyncpg issues COMMIT;
when the statement had failed with a server-reported error
(`asyncpg.PostgresError`) the transaction is in PostgreSQL's aborted
state, and the server executes that COMMIT as a ROLLBACK, so no effect of
the failed statement persists.  `rolledBack` records exactly that case;
`committed` records a COMMIT taking effect; `notStarted` means BEGIN never
completed. -/
inductive TxFinal where
  | notStarted
  | committed
  | rolledBack
  deriving Repr, DecidableEq

/-- A value returned by `_execute_query`: the row list of `fetch_all` (or
of the default `RETURNING` path), the optional row of `fetch_one`, the
status string of `execute_only`, the error dict
`{"error": msg, "query": query, "params": params}`, or the
configuration-check error dict (which has no query/params keys). -/
inductive QueryResult where
  | rows (rs : List Row)
  | row (r : Option Row)
  | status (s : String)
  | error (msg : String) (query : String) (params : Option (List Value))
  | configError (msg : String)
  deriving Repr, DecidableEq

/-- The error message `_execute_query` builds for a caught exception:
`f"Database query error: {type(e).__name__} - {str(e)}"` for
`asyncpg.PostgresError`, and
`f"An unexpected error occurred during query execution: {str(e)}"` for any
other `Exception`. -/
def excMessage : PyExc → String
  | .postgres n m => "Database query error: " ++ n ++ " - " ++ m
  | .other m => "An unexpected error occurred during query execution: " ++ m

/-- Embedding of `_execute_query(query, params, fetch_all, fetch_one,
execute_only)` (src/services/pg_query.py, lines 34-65), returning the
Python outcome together with the transaction's fate.  The `try` block in
the source begins only after `get_db_pool()`, `pool.acquire()` and the
transaction entry have succeeded, so an exception in any of those three
steps propagates uncaught; an exception from the driver call is caught and
turned into the error dict carrying the statement text and parameter
list. -/
def execute_query (cfg : DbConfig) (env : ExecEnv) (query : String)
    (params : Option (List Value))
    (fetch_all fetch_one execute_only : Bool) :
    PyOutcome QueryResult × TxFinal :=
  if cfg.dbUser = "" ∨ cfg.dbHost = "" ∨ cfg.dbName = "" then
    (.ret (.configError ("Database connection details (DB_USER, DB_HOST, " ++
      "DB_NAME) must be configured in environment variables.")),
     .notStarted)
  else
    match env.getPool with
    | .error e => (.raised e, .notStarted)
    | .ok _ =>
      match env.acquire with
      | .error e => (.raised e, .notStarted)
      | .ok _ =>
        match env.beginTx with
        | .error e => (.raised e, .notStarted)
        | .ok _ =>
          let handle : Except PyExc QueryResult →
              PyOutcome QueryResult × TxFinal := fun r =>
            match r with
            | .ok v => (.ret v, .committed)
            | .error (.postgres n m) =>
                (.ret (.error (excMessage (.postgres n m)) query params),
                 .rolledBack)
            | .error (.other m) =>
                (.ret (.error (excMessage (.other m)) query params),
                 .committed)
          if fetch_all then
            handle (env.fetchResult.map (fun rs => .rows rs))
          else if fetch_one then
            handle (env.fetchrowResult.map (fun r => .row r))
          else if execute_only then
            handle (env.executeResult.map (fun s => .status s))
          else
            handle (env.fetchResult.map (fun rs => .rows rs))

/-- Embedding of the full `insert_into_table` tool
(src/services/pg_query.py, lines 127-149): build the statement, then run
it through `_execute_query` with `fetch_all=True` when a `RETURNING`
clause was appended and `execute_only=True` otherwise. -/
def insert_into_table (cfg : DbConfig) (env : ExecEnv)
    (table_name : String) (data : List (String × Value))
    (returning_columns : Option (List String)) :
    PyOutcome QueryResult × TxFinal :=
  let built := insert_build table_name data returning_columns
  if built.2 then
    execute_query cfg env built.1.query built.1.params false false true
  else
    execute_query cfg env built.1.query built.1.params true false false

/-- A row of the API-key table: the configured key-value column and
active-flag column. -/
structure ApiKeyRow where
  keyValue : String
  isActive : Bool
  deriving Repr, DecidableEq

/-- Behaviour of the effectful steps of `validate_api_key_from_db`:
`get_db_pool()` (outside the `try`), `pool.acquire()` (inside the `try`),
the `conn.fetchval` lookup (inside the `try`), and the key table the
lookup query runs against when it succeeds. -/
structure AuthEnv where
  getPoolFault : Option PyExc
  acquireFault : Option PyExc
  queryFault : Option PyExc
  table : List ApiKeyRow
  deriving Repr, DecidableEq

/-- Semantics of the fixed lookup statement
`SELECT EXISTS (SELECT 1 FROM t WHERE key_col = $1 AND active_col = TRUE)`:
true iff some row matches the key and is active. -/
def existsActiveKey (table : List ApiKeyRow) (key : String) : Bool :=
  table.any (fun r => r.keyValue == key && r.isActive)

/-- Embedding of `validate_api_key_from_db(api_key)`
(src/services/auth_service.py, lines 13-41).  The second component counts
lookup queries attempted.  `if not api_key: return False` runs before any
pool access; `get_db_pool()` is called outside the `try`, so a fault there
propagates; faults from `pool.acquire()` or the `fetchval` lookup are
caught and collapse to `False`. -/
def validate_api_key_from_db (env : AuthEnv) (api_key : String) :
    PyOutcome Bool × Nat :=
  if api_key = "" then (.ret false, 0)
  else
    match env.getPoolFault with
    | some e => (.raised e, 0)
    | none =>
      match env.acquireFault with
      | some _ => (.ret false, 0)
      | none =>
        match env.queryFault with
        | some _ => (.ret false, 1)
        | none => (.ret (existsActiveKey env.table api_key), 1)

/-- Global pool state of `src/common/db_utils.py`: the module-level
`_db_pool` (pool instances are numbered in creation order) and the count
of pools created so far. -/
structure PoolState where
  pool : Option Nat
  created : Nat
  deriving Repr, DecidableEq

/-- Control point of one coroutine running the body of `get_db_pool`
(src/common/db_utils.py, lines 18-36).  The body has exactly one
suspension point, `await asyncpg.create_pool(...)`, between the
`_db_pool is None` test and the assignment to `_db_pool`; so a coroutine
is either at the start, suspended inside `create_pool`, or finished with
a returned pool instance. -/
inductive CoState where
  | start
  | creating
  | done (r : Nat)
  deriving Repr, DecidableEq

/-- One atomic step of a coroutine running `get_db_pool` against the
shared state: from `start`, either return the existing pool or (seeing
`None`) suspend into `create_pool`; from `creating`, the awaited
`create_pool` completes, the new pool is assigned to `_db_pool`, and the
coroutine returns it (assignment and return have no suspension point
between them). -/
def coStep (g : PoolState) (c : CoState) : PoolState × CoState :=
  match c with
  | .start =>
      match g.pool with
      | some p => (g, .done p)
      | none => (g, .creating)
  | .creating => (⟨some g.created, g.created + 1⟩, .done g.created)
  | .done r => (g, .done r)

/-- Run a list of coroutines under an explicit schedule: each schedule
entry names the coroutine that takes the next atomic step. -/
def runSched (g : PoolState) (cs : List CoState) :
    List Nat → PoolState × List CoState
  | [] => (g, cs)
  | i :: rest =>
      match cs[i]? with
      | none => runSched g cs rest
      | some c =>
          let s := coStep g c
          runSched s.1 (cs.set i s.2) rest

/-- One complete, non-overlapping call to `get_db_pool`: returns the
existing pool, or creates and returns a fresh one.  This is what a
coroutine's two atomic steps amount to when no other coroutine runs in
between (see `runSched_single_call`). -/
def get_db_pool_call (g : PoolState) : PoolState × Nat :=
  match g.pool with
  | some p => (g, p)
  | none => (⟨some g.created, g.created + 1⟩, g.created)

/-- Run `n` complete `get_db_pool` calls back to back, collecting the pool
instance each caller received. -/
def runSeqCalls (g : PoolState) : Nat → PoolState × List Nat
  | 0 => (g, [])
  | n + 1 =>
      let c := get_db_pool_call g
      let rest := runSeqCalls c.1 n
      (rest.1, c.2 :: rest.2)

/-- Embedding of `close_db_pool()` (src/common/db_utils.py, lines 38-43).
The boolean records whether the underlying `pool.close()` coroutine was
invoked at all: with `_db_pool` unset, the `if _db_pool:` guard fails and
the body runs nothing fallible. -/
def close_db_pool (g : PoolState) : PoolState × Bool :=
  match g.pool with
  | none => (g, false)
  | some _ => (⟨none, g.created⟩, true)

example :
    select_from_table "items" (.raw "*") (some "qty > $1")
      (some [Value.int 1]) none (some 10) (some 5) =
    ⟨"SELECT * FROM items WHERE qty > $1 LIMIT $2 OFFSET $3",
     some [Value.int 1, Value.int 10, Value.int 5]⟩ := by decide

example :
    insert_build "items" [("name", .str "widget"), ("qty", .int 3)]
      (some ["id"]) =
    (⟨"INSERT INTO items (name, qty) VALUES ($1, $2) RETURNING id",
      some [Value.str "widget", Value.int 3]⟩, false) := by decide

example :
    update_table "items" [("name", .str "w2"), ("qty", .int 4)] "id = $3"
      (some [Value.int 9]) =
    ⟨"UPDATE items SET name = $1, qty = $2 WHERE id = $3",
     some [Value.str "w2", Value.int 4, Value.int 9]⟩ := by decide

/-- Statement of the spec: the list of positional placeholders
`$1, ..., $n`, numbered 1..n in order. -/
def placeholdersTo : Nat → List String
  | 0 => []
  | n + 1 => placeholdersTo n ++ ["$" ++ toString (n + 1)]

/-- The placeholder list the source builds by mapping over
`range(len(data))` is exactly the placeholders numbered 1..n in order. -/
lemma range_map_eq_placeholdersTo (n : Nat) :
    (List.range n).map (fun i => "$" ++ toString (i + 1)) =
      placeholdersTo n := by
  induction n with
  | zero => rfl
  | succ k ih => rw [List.range_succ, List.map_append, ih]; rfl

/-- Statement of the spec: the SET clauses for an insertion-ordered column
mapping, with placeholder numbers counting up from `i`. -/
def setClausesFrom (i : Nat) : List (String × Value) → List String
  | [] => []
  | kv :: rest => (kv.1 ++ " = $" ++ toString i) :: setClausesFrom (i + 1) rest

/-- Unfolding of the `update_table` SET-clause loop: starting from any
accumulator, it appends the clauses numbered from the current index and
the values in insertion order. -/
lemma update_foldl_spec (sv : List (String × Value)) :
    ∀ (i : Nat) (accS : List String) (accV : List Value),
      sv.foldl updateSetStep (accS, i, accV) =
        (accS ++ setClausesFrom i sv, i + sv.length, accV ++ sv.map Prod.snd) := by
  induction sv with
  | nil => intro i accS accV; simp [setClausesFrom]
  | cons kv rest ih =>
      intro i accS accV
      rw [List.foldl_cons]
      show rest.foldl updateSetStep
          (accS ++ [kv.1 ++ " = $" ++ toString i], i + 1, accV ++ [kv.2]) = _
      rw [ih]
      simp [setClausesFrom]
      omega

/-- C2: for every select call with both `limit` and `offset` set and M
predicate parameters, the limit placeholder is numbered M+1, the offset
placeholder M+2, and the final parameter sequence is the predicate
parameters followed by `[limit, offset]`; in particular the
`items`/`qty > $1` scenario produces
`SELECT * FROM items WHERE qty > $1 LIMIT $2 OFFSET $3` with parameters
`[1, 10, 5]`. -/
theorem select_limit_offset_numbering :
    (∀ (t : String) (cols : Columns) (wc ob : Option String)
        (ps : List Value) (l o : Int),
      select_from_table t cols wc (some ps) ob (some l) (some o) =
        ⟨(select_from_table t cols wc (some ps) ob none none).query ++
            " LIMIT $" ++ toString ((ps.length : Int) + 1) ++
            " OFFSET $" ++ toString ((ps.length : Int) + 2),
         some (ps ++ [Value.int l, Value.int o])⟩)
    ∧ select_from_table "items" (.raw "*") (some "qty > $1")
        (some [Value.int 1]) none (some 10) (some 5) =
      ⟨"SELECT * FROM items WHERE qty > $1 LIMIT $2 OFFSET $3",
       some [Value.int 1, Value.int 10, Value.int 5]⟩ := by
  constructor
  · intro t cols wc ob ps l o
    rcases ps with _ | ⟨a, as⟩ <;>
      (simp [select_from_table, truthyList, List.append_assoc]; try ring_nf)
  · decide

/-- C8: for every select call with `offset` set, `limit` unset, and M
predicate parameters, the offset placeholder is numbered M+1 and the
offset value is appended after the predicate parameters. -/
theorem select_offset_only_numbering (t : String) (cols : Columns)
    (wc ob : Option String) (ps : List Value) (o : Int) :
    select_from_table t cols wc (some ps) ob none (some o) =
      ⟨(select_from_table t cols wc (some ps) ob none none).query ++
          " OFFSET $" ++ toString ((ps.length : Int) + 1),
       some (ps ++ [Value.int o])⟩ := by
  rcases ps with _ | ⟨a, as⟩ <;>
    (simp [select_from_table, truthyList]; try ring_nf)

/-- C5: for every insert call with a data mapping of N columns, the
generated statement lists exactly the N placeholders numbered 1..N in the
mapping's insertion order and the parameter sequence is the N values in
that order; in particular the `items`/`widget` scenario produces
`INSERT INTO items (name, qty) VALUES ($1, $2) RETURNING id` with
parameters `["widget", 3]`. -/
theorem insert_placeholder_numbering :
    (∀ (t : String) (data : List (String × Value))
        (rc : Option (List String)),
      (insert_build t data rc).1.params = some (data.map Prod.snd)
      ∧ (insert_build t data none).1.query =
          "INSERT INTO " ++ t ++ " (" ++
            String.intercalate ", " (data.map Prod.fst) ++ ") VALUES (" ++
            String.intercalate ", " (placeholdersTo data.length) ++ ")")
    ∧ insert_build "items" [("name", .str "widget"), ("qty", .int 3)]
        (some ["id"]) =
      (⟨"INSERT INTO items (name, qty) VALUES ($1, $2) RETURNING id",
        some [Value.str "widget", Value.int 3]⟩, false) := by
  refine ⟨fun t data rc => ⟨?_, ?_⟩, by decide⟩
  · unfold insert_build
    cases truthyList rc <;> simp
  · unfold insert_build
    rw [range_map_eq_placeholdersTo]
    rfl

/-- C6: for every update call with K set-columns and J predicate
parameters, the SET-clause placeholders are numbered 1..K in the set
mapping's insertion order and the final parameter sequence has exactly
K+J elements, the K set values first and the J predicate parameters
after. -/
theorem update_params_order (t : String) (sv : List (String × Value))
    (wc : String) (qp : List Value) :
    update_table t sv wc (some qp) =
      ⟨"UPDATE " ++ t ++ " SET " ++
          String.intercalate ", " (setClausesFrom 1 sv) ++ " WHERE " ++ wc,
       some (sv.map Prod.snd ++ qp)⟩
    ∧ (sv.map Prod.snd ++ qp).length = sv.length + qp.length := by
  constructor
  · unfold update_table
    rw [update_foldl_spec]
    rcases qp with _ | ⟨a, as⟩ <;> simp [truthyList]
  · simp

/-- C10: calling `close_db_pool` when no pool exists is a total no-op:
the underlying `pool.close()` is never invoked (so nothing can raise) and
the state stays uninitialized; and since any close leaves `_db_pool`
unset, a second close is likewise a no-op. -/
theorem close_db_pool_noop_when_absent :
    (∀ c : Nat, close_db_pool ⟨none, c⟩ = (⟨none, c⟩, false))
    ∧ (∀ g : PoolState, (close_db_pool g).1.pool = none)
    ∧ (∀ g : PoolState,
        close_db_pool (close_db_pool g).1 = ((close_db_pool g).1, false)) := by
  refine ⟨fun c => rfl, ?_, ?_⟩ <;>
    intro g <;> rcases g with ⟨_ | p, c⟩ <;> rfl

/-- C7 counterexample: two coroutines entering `get_db_pool` for the first
time can interleave (schedule 0,1,0,1: both test `_db_pool is None` before
either `create_pool` completes) so that two pools are created and the two
callers receive different instances — creation is not single-flight. -/
theorem get_db_pool_race_two_pools :
    (runSched ⟨none, 0⟩ [CoState.start, CoState.start] [0, 1, 0, 1]).1.created = 2
    ∧ (runSched ⟨none, 0⟩ [CoState.start, CoState.start] [0, 1, 0, 1]).2 =
        [CoState.done 0, CoState.done 1] := by
  decide

/-- Running `runSeqCalls` from the state right after first creation
changes nothing and hands every caller pool instance 0. -/
lemma runSeqCalls_after_first (m : Nat) :
    runSeqCalls ⟨some 0, 1⟩ m = (⟨some 0, 1⟩, List.replicate m 0) := by
  induction m with
  | zero => rfl
  | succ k ih => simp [runSeqCalls, get_db_pool_call, ih, List.replicate_succ]

/-- C7 as amended: a complete call to `get_db_pool` is the two atomic
steps of one coroutine run without interleaving, and when first-time calls
do not overlap, exactly one underlying pool is ever created and every
caller receives that same instance (instance 0). -/
theorem get_db_pool_sequential_single_pool :
    (∀ g : PoolState, runSched g [CoState.start] [0, 0] =
        ((get_db_pool_call g).1, [CoState.done (get_db_pool_call g).2]))
    ∧ (∀ n : Nat, (runSeqCalls ⟨none, 0⟩ (n + 1)).1.created = 1
        ∧ (runSeqCalls ⟨none, 0⟩ (n + 1)).2 = List.replicate (n + 1) 0) := by
  constructor
  · intro g
    rcases g with ⟨_ | p, c⟩ <;> rfl
  · intro n
    simp [runSeqCalls, get_db_pool_call, runSeqCalls_after_first,
      List.replicate_succ]

/-- C1: the authorization gate fails closed — for the empty key it returns
false at once with no lookup query executed; with the pool available it
returns false (never raising) when the key is absent from the table, when
every row carrying the key is inactive, and when the lookup fails (the
`pool.acquire()` call or the query itself throwing). -/
theorem validate_api_key_fail_closed (env : AuthEnv) (key : String) :
    validate_api_key_from_db env "" = (.ret false, 0)
    ∧ (env.getPoolFault = none → (∀ r ∈ env.table, r.keyValue ≠ key) →
        (validate_api_key_from_db env key).1 = .ret false)
    ∧ (env.getPoolFault = none →
        (∀ r ∈ env.table, r.keyValue = key → r.isActive = false) →
        (validate_api_key_from_db env key).1 = .ret false)
    ∧ (env.getPoolFault = none →
        (env.acquireFault.isSome ∨ env.queryFault.isSome) →
        (validate_api_key_from_db env key).1 = .ret false) := by
  rcases env with ⟨pf, af, qf, table⟩
  refine ⟨rfl, ?_, ?_, ?_⟩
  · intro hp habsent
    subst hp
    by_cases hk : key = ""
    · subst hk; rfl
    · rcases af with _ | e
      · rcases qf with _ | e
        · have : existsActiveKey table key = false := by
            simp only [existsActiveKey, List.any_eq_false]
            intro r hr
            simp [habsent r hr]
          simp [validate_api_key_from_db, hk, this]
        · simp [validate_api_key_from_db, hk]
      · simp [validate_api_key_from_db, hk]
  · intro hp hinactive
    subst hp
    by_cases hk : key = ""
    · subst hk; rfl
    · rcases af with _ | e
      · rcases qf with _ | e
        · have : existsActiveKey table key = false := by
            simp only [existsActiveKey, List.any_eq_false]
            intro r hr
            intro hcontra
            rw [Bool.and_eq_true, beq_iff_eq] at hcontra
            exact absurd (hinactive r hr hcontra.1) (by simp [hcontra.2])
          simp [validate_api_key_from_db, hk, this]
        · simp [validate_api_key_from_db, hk]
      · simp [validate_api_key_from_db, hk]
  · intro hp hfault
    subst hp
    by_cases hk : key = ""
    · subst hk; rfl
    · rcases af with _ | e
      · rcases qf with _ | e
        · simp at hfault
        · simp [validate_api_key_from_db, hk]
      · simp [validate_api_key_from_db, hk]

/-- The concrete key table used to instantiate the fail-closed theorem. -/
def authEnvW : AuthEnv :=
  ⟨none, none, none, [⟨"live-key", true⟩, ⟨"dead-key", false⟩]⟩

theorem validate_api_key_fail_closed_witness :
    authEnvW.getPoolFault = none
    ∧ (∀ r ∈ authEnvW.table, r.keyValue = "dead-key" → r.isActive = false)
    ∧ (validate_api_key_from_db authEnvW "dead-key").1 = .ret false :=
  ⟨rfl, by decide,
   (validate_api_key_fail_closed authEnvW "dead-key").2.2.1 rfl (by decide)⟩

/-- The configuration used by the concrete executor scenarios: the three
checked settings present (the source's defaults). -/
def cfgW : DbConfig := ⟨"postgres", "localhost", "mydatabase"⟩

/-- An executor environment whose connection acquisition throws and whose
other steps succeed. -/
def envAcquireFails : ExecEnv :=
  ⟨Except.ok (), Except.error (PyExc.other "connection reset"),
   Except.ok (), Except.ok [], Except.ok none, Except.ok ""⟩

/-- C3 counterexample: the `try` of `_execute_query` begins only after
`pool.acquire()` has succeeded, so an exception thrown during connection
acquisition propagates past the executor's boundary instead of being
returned as a structured error value. -/
theorem execute_query_acquire_raises :
    execute_query cfgW envAcquireFails "SELECT 1" none true false false =
      (.raised (PyExc.other "connection reset"), .notStarted) := by
  decide

/-- C3 as amended: for every statement and execution mode, an exception
raised by the statement's execution (the driver call) is captured and
returned as a structured error value carrying the statement text and the
parameter list; exceptions from obtaining the pool, acquiring the
connection, or opening the transaction are outside the `try` and
propagate. -/
theorem execute_query_captures_statement_errors (cfg : DbConfig)
    (env : ExecEnv) (query : String) (params : Option (List Value))
    (fa fo eo : Bool) (e : PyExc)
    (hcfg : ¬(cfg.dbUser = "" ∨ cfg.dbHost = "" ∨ cfg.dbName = ""))
    (hp : env.getPool = .ok ()) (ha : env.acquire = .ok ())
    (hb : env.beginTx = .ok ())
    (hf : env.fetchResult = .error e) (hr : env.fetchrowResult = .error e)
    (hx : env.executeResult = .error e) :
    (execute_query cfg env query params fa fo eo).1 =
      .ret (.error (excMessage e) query params) := by
  simp only [execute_query, hp, ha, hb, hf, hr, hx, if_neg hcfg]
  cases fa <;> cases fo <;> cases eo <;> cases e <;>
    simp [Except.map, excMessage]

/-- An executor environment whose driver calls all raise the given
exception, everything before the `try` succeeding. -/
def envQueryFails (e : PyExc) : ExecEnv :=
  ⟨Except.ok (), Except.ok (), Except.ok (),
   Except.error e, Except.error e, Except.error e⟩

theorem execute_query_captures_statement_errors_witness :
    ¬(cfgW.dbUser = "" ∨ cfgW.dbHost = "" ∨ cfgW.dbName = "")
    ∧ (execute_query cfgW (envQueryFails (PyExc.other "boom"))
        "SELECT 1" none true false false).1 =
      .ret (.error (excMessage (PyExc.other "boom")) "SELECT 1" none) :=
  ⟨by decide,
   execute_query_captures_statement_errors cfgW
     (envQueryFails (PyExc.other "boom")) "SELECT 1" none true false false
     (PyExc.other "boom") (by decide) rfl rfl rfl rfl rfl rfl⟩

/-- Two strings with distinct known head characters stay distinct under
appending arbitrary tails: used to separate the executor's two error
classifications. -/
lemma db_msg_ne_unexpected_msg (x y : String) :
    "Database query error: " ++ x ≠
      "An unexpected error occurred during query execution: " ++ y := by
  rcases x with ⟨xd⟩
  rcases y with ⟨yd⟩
  intro h
  have hx : ("Database query error: " ++ String.mk xd).data.head? =
      some (Char.ofNat 68) := rfl
  rw [h] at hx
  have hy : ("An unexpected error occurred during query execution: " ++
      String.mk yd).data.head? = some (Char.ofNat 65) := rfl
  rw [hy] at hx
  exact absurd hx (by decide)

/-- C4: whenever the database itself rejects the statement (an
`asyncpg.PostgresError`), the executor returns the structured error
carrying the engine's error classification, the statement text and the
parameters, and the transaction's effects are rolled back (the exception
is swallowed inside the transaction block, asyncpg issues COMMIT, and
PostgreSQL executes that COMMIT as ROLLBACK on the aborted transaction);
the message is distinct from the one produced for any unexpected
non-database error, so the two classes are distinguishable. -/
theorem execute_query_rollback_and_classification (cfg : DbConfig)
    (env : ExecEnv) (query : String) (params : Option (List Value))
    (fa fo eo : Bool) (n m : String)
    (hcfg : ¬(cfg.dbUser = "" ∨ cfg.dbHost = "" ∨ cfg.dbName = ""))
    (hp : env.getPool = .ok ()) (ha : env.acquire = .ok ())
    (hb : env.beginTx = .ok ())
    (hf : env.fetchResult = .error (.postgres n m))
    (hr : env.fetchrowResult = .error (.postgres n m))
    (hx : env.executeResult = .error (.postgres n m)) :
    execute_query cfg env query params fa fo eo =
      (.ret (.error (excMessage (.postgres n m)) query params), .rolledBack)
    ∧ ∀ m2 : String,
        excMessage (.postgres n m) ≠ excMessage (.other m2) := by
  constructor
  · simp only [execute_query, hp, ha, hb, hf, hr, hx, if_neg hcfg]
    cases fa <;> cases fo <;> cases eo <;> simp [Except.map]
  · intro m2
    simp only [excMessage, String.append_assoc]
    exact db_msg_ne_unexpected_msg (n ++ (" - " ++ m)) m2

theorem execute_query_rollback_and_classification_witness :
    ¬(cfgW.dbUser = "" ∨ cfgW.dbHost = "" ∨ cfgW.dbName = "")
    ∧ execute_query cfgW
        (envQueryFails (PyExc.postgres "UniqueViolationError" "duplicate key"))
        "INSERT INTO items (name) VALUES ($1)" (some [Value.str "widget"])
        false false true =
      (.ret (.error
          (excMessage (PyExc.postgres "UniqueViolationError" "duplicate key"))
          "INSERT INTO items (name) VALUES ($1)" (some [Value.str "widget"])),
       .rolledBack) :=
  ⟨by decide,
   (execute_query_rollback_and_classification cfgW
     (envQueryFails (PyExc.postgres "UniqueViolationError" "duplicate key"))
     "INSERT INTO items (name) VALUES ($1)" (some [Value.str "widget"])
     false false true "UniqueViolationError" "duplicate key"
     (by decide) rfl rfl rfl rfl rfl rfl).1⟩

/-- C9: `insert_into_table` returns the rows produced by the `RETURNING`
clause exactly when `returning_columns` is a non-empty list — the clause
is appended and the call runs in fetch-all mode; with `returning_columns`
absent or an empty list the statement is exactly the bare
`INSERT ... VALUES (...)` with no `RETURNING` fragment and the call
returns the driver's status descriptor instead of rows. -/
theorem insert_returning_behavior (cfg : DbConfig) (env : ExecEnv)
    (t : String) (data : List (String × Value)) (rcl : List String)
    (rs : List Row) (st : String)
    (hcfg : ¬(cfg.dbUser = "" ∨ cfg.dbHost = "" ∨ cfg.dbName = ""))
    (hp : env.getPool = .ok ()) (ha : env.acquire = .ok ())
    (hb : env.beginTx = .ok ())
    (hfetch : env.fetchResult = .ok rs)
    (hexec : env.executeResult = .ok st) :
    (rcl ≠ [] →
      (insert_build t data (some rcl)).1.query =
        (insert_build t data none).1.query ++ " RETURNING " ++
          String.intercalate ", " rcl
      ∧ (insert_into_table cfg env t data (some rcl)).1 = .ret (.rows rs))
    ∧ ((insert_build t data none).2 = true
      ∧ (insert_into_table cfg env t data none).1 = .ret (.status st))
    ∧ ((insert_build t data (some [])).1.query =
        (insert_build t data none).1.query
      ∧ (insert_into_table cfg env t data (some [])).1 = .ret (.status st)) := by
  refine ⟨?_, ⟨rfl, ?_⟩, ⟨?_, ?_⟩⟩
  · intro hne
    rcases rcl with _ | ⟨c, cs⟩
    · exact absurd rfl hne
    constructor
    · simp [insert_build, truthyList]
    · simp only [insert_into_table, insert_build, truthyList]
      simp only [execute_query, hp, ha, hb, hfetch, if_neg hcfg]
      simp [Except.map]
  · simp only [insert_into_table, insert_build, truthyList]
    simp only [execute_query, hp, ha, hb, hexec, if_neg hcfg]
    simp [Except.map]
  · simp [insert_build, truthyList]
  · simp only [insert_into_table, insert_build, truthyList]
    simp only [execute_query, hp, ha, hb, hexec, if_neg hcfg]
    simp [Except.map]

/-- An executor environment where every step succeeds, the driver
returning one row `{id: 7}` for fetches and `INSERT 0 1` for
execute-only. -/
def envInsertOk : ExecEnv :=
  ⟨Except.ok (), Except.ok (), Except.ok (),
   Except.ok [[("id", Value.int 7)]], Except.ok none, Except.ok "INSERT 0 1"⟩

theorem insert_returning_behavior_witness :
    ¬(cfgW.dbUser = "" ∨ cfgW.dbHost = "" ∨ cfgW.dbName = "")
    ∧ (["id"] : List String) ≠ []
    ∧ (insert_into_table cfgW envInsertOk "items"
        [("name", Value.str "widget")] (some ["id"])).1 =
      .ret (.rows [[("id", Value.int 7)]])
    ∧ (insert_into_table cfgW envInsertOk "items"
        [("name", Value.str "widget")] none).1 =
      .ret (.status "INSERT 0 1") :=
  ⟨by decide, by decide,
   ((insert_returning_behavior cfgW envInsertOk "items"
      [("name", Value.str "widget")] ["id"] [[("id", Value.int 7)]]
      "INSERT 0 1" (by decide) rfl rfl rfl rfl rfl).1 (by decide)).2,
   (insert_returning_behavior cfgW envInsertOk "items"
      [("name", Value.str "widget")] ["id"] [[("id", Value.int 7)]]
      "INSERT 0 1" (by decide) rfl rfl rfl rfl rfl).2.1.2⟩

end McpSse
